import Mathlib

/-!
Shallow embedding of the Dagster definitions module of the Airbnb ELT
pipeline repository, file
`DBT-dagster_snowflake_project/DBT/dbtlearn/dbt_airbnb_dagster_pipeline/dbt_airbnb_dagster_pipeline/definitions.py`.

The module is declarative wiring: it assembles one `Definitions`
registration object from an unpartitioned dbt asset definition, a
partitioned dbt asset definition, a schedule list, and a resource map
binding the key "dbt" to a `DbtCliResource` whose `project_dir` is
`os.fspath(dbt_project_dir)`.  The `Definitions` constructor, the
asset / schedule / constants collaborators, `os.fspath`, and the CLI
resource consumer live outside the excerpt; their behaviour is modelled
from the specification where the doc comment says so.
-/

/-- An asset definition: an opaque handle to a named transformation unit.
The `partitioned` flag records whether it carries a partitioning
dimension. -/
structure AssetDef where
  name : String
  partitioned : Bool
  deriving DecidableEq, Repr

/-- A schedule: an opaque trigger rule, identified by name. -/
structure Schedule where
  name : String
  deriving DecidableEq, Repr

/-- A path-like value as handed over by the constants collaborator:
`os.fspath` applied to it yields its underlying string form. -/
structure PathLike where
  str : String
  deriving DecidableEq, Repr

/-- Modelled from the spec: Python `os.fspath` coerces a path-like value
to its string form, without resolving, normalizing, or testing the
path. -/
def os_fspath (p : PathLike) : String := p.str

/-- The CLI resource configuration: a value object holding the single
required field `project_dir`, the path to the transformation project
root. -/
structure DbtCliResource where
  project_dir : String
  deriving DecidableEq, Repr

/-- Construction of the CLI resource exactly as in the source line
`DbtCliResource(project_dir=os.fspath(dbt_project_dir))`. -/
def mkDbtCliResource (p : PathLike) : DbtCliResource :=
  { project_dir := os_fspath p }

/-- Errors that assembly of the registration object can raise.  The spec
names one assembly-time failure for this module: a naming collision
between two asset definitions. -/
inductive DefsError where
  | namingCollision (name : String)
  deriving DecidableEq, Repr

/-- Errors raised lazily by the collaborator that consumes the CLI
resource configuration: a configuration error for a project directory
that does not exist at use time. -/
inductive ConfigError where
  | missingProjectDir (path : String)
  deriving DecidableEq, Repr

/-- The registration object: an immutable snapshot aggregating the asset
collection, the schedule collection and the resource mapping keyed by
logical name. -/
structure Definitions where
  assets : List AssetDef
  schedules : List Schedule
  resources : List (String × DbtCliResource)
  deriving DecidableEq, Repr

/-- First duplicate in a list of names, if any. -/
def findDupName : List String → Option String
  | [] => none
  | n :: ns => if n ∈ ns then some n else findDupName ns

/-- Modelled from the spec: the external `Definitions` constructor of the
orchestration framework.  It performs no I/O; it fails with a
naming-collision error when two asset definitions share a name, and
otherwise returns the complete registration object holding exactly the
given assets, schedules and resources. -/
def mkDefinitions (assets : List AssetDef) (schedules : List Schedule)
    (resources : List (String × DbtCliResource)) :
    Except DefsError Definitions :=
  match findDupName (assets.map AssetDef.name) with
  | some n => .error (.namingCollision n)
  | none => .ok { assets := assets, schedules := schedules, resources := resources }

/-- Modelled from the spec: the external CLI collaborator that consumes
the resource configuration validates the project directory lazily,
failing with a configuration error at use time when the path does not
exist in the ambient filesystem `fsExists`. -/
def useDbtCliResource (fsExists : String → Bool) (r : DbtCliResource) :
    Except ConfigError Unit :=
  if fsExists r.project_dir then .ok ()
  else .error (.missingProjectDir r.project_dir)

/-- Modelled from the spec: the unpartitioned dbt asset definition
imported from the `.assets` collaborator (asset A of the spec
scenario). -/
def dbtlearn_dbt_assets : AssetDef :=
  { name := "dbtlearn_dbt_assets", partitioned := false }

/-- Modelled from the spec: the partitioned dbt asset definition imported
from the `.assets` collaborator (asset B of the spec scenario). -/
def dbtlearn_partitioned_dbt_assets : AssetDef :=
  { name := "dbtlearn_partitioned_dbt_assets", partitioned := true }

/-- Modelled from the spec: the schedule list imported from the
`.schedules` collaborator (schedule set S1 of the spec scenario). -/
def schedules : List Schedule := [{ name := "S1" }]

/-- Modelled from the spec: the project-root path imported from the
`.constants` collaborator (path "/proj" of the spec scenario). -/
def dbt_project_dir : PathLike := { str := "/proj" }

/-- The module-level assembly, mirroring the live (uncommented) source:
`defs = Definitions(assets=[dbtlearn_dbt_assets, dbtlearn_partitioned_dbt_assets],
schedules=schedules, resources={"dbt": DbtCliResource(project_dir=os.fspath(dbt_project_dir))})`. -/
def defs : Except DefsError Definitions :=
  mkDefinitions
    [dbtlearn_dbt_assets, dbtlearn_partitioned_dbt_assets]
    schedules
    [("dbt", mkDbtCliResource dbt_project_dir)]

/-- `findDupName` returns `none` exactly on duplicate-free name lists. -/
theorem findDupName_eq_none_iff (l : List String) :
    findDupName l = none ↔ l.Nodup := by
  induction l with
  | nil => simp [findDupName]
  | cons n ns ih =>
    by_cases h : n ∈ ns
    · simp [findDupName, h]
    · simp [findDupName, h, ih]

/-- Successful assembly returns the complete snapshot of its inputs and
certifies duplicate-free asset names. -/
theorem mkDefinitions_ok_elim (a : List AssetDef) (s : List Schedule)
    (r : List (String × DbtCliResource)) (d : Definitions)
    (h : mkDefinitions a s r = .ok d) :
    d = { assets := a, schedules := s, resources := r } ∧
    (a.map AssetDef.name).Nodup := by
  unfold mkDefinitions at h
  cases hfd : findDupName (a.map AssetDef.name) with
  | some n => rw [hfd] at h; cases h
  | none =>
    rw [hfd] at h
    injection h with h
    exact ⟨h.symm, (findDupName_eq_none_iff _).mp hfd⟩

/-- Duplicate-free asset names make assembly succeed with the complete
snapshot. -/
theorem mkDefinitions_ok_of_nodup (a : List AssetDef) (s : List Schedule)
    (r : List (String × DbtCliResource))
    (hnd : (a.map AssetDef.name).Nodup) :
    mkDefinitions a s r =
      .ok { assets := a, schedules := s, resources := r } := by
  unfold mkDefinitions
  rw [(findDupName_eq_none_iff _).mpr hnd]

/-- C1: for the concrete inputs of this module (unpartitioned asset set
{A}, partitioned asset set {B}, schedule set {S1}, resource map
{"dbt": path}), the assembled registration object contains exactly the
assets {A, B}, exactly the schedules {S1}, and exactly the resource key
"dbt". -/
theorem c1_concrete_registration_exact :
    ∃ d, defs = .ok d ∧
      d.assets = [dbtlearn_dbt_assets, dbtlearn_partitioned_dbt_assets] ∧
      d.schedules = [{ name := "S1" }] ∧
      d.resources.map Prod.fst = ["dbt"] :=
  ⟨_, rfl, rfl, rfl, rfl⟩

/-- C2: for every valid non-empty asset collection and resource mapping,
assembly succeeds and the resulting asset collection has the same
cardinality as the input (no silent drop, no duplication). -/
theorem c2_assembly_preserves_cardinality (a : List AssetDef)
    (s : List Schedule) (r : List (String × DbtCliResource))
    (_hne : a ≠ []) (hnd : (a.map AssetDef.name).Nodup) :
    ∃ d, mkDefinitions a s r = .ok d ∧ d.assets.length = a.length :=
  ⟨_, mkDefinitions_ok_of_nodup a s r hnd, rfl⟩

/-- Witness for C2 at a concrete singleton asset collection. -/
theorem c2_assembly_preserves_cardinality_witness :
    ([⟨"a", false⟩] : List AssetDef) ≠ [] ∧
    (([⟨"a", false⟩] : List AssetDef).map AssetDef.name).Nodup ∧
    ∃ d, mkDefinitions [⟨"a", false⟩] [] [] = .ok d ∧
      d.assets.length = ([⟨"a", false⟩] : List AssetDef).length :=
  ⟨by decide, by decide,
    c2_assembly_preserves_cardinality _ _ _ (by decide) (by decide)⟩

/-- C3: if two asset definitions at distinct positions of the input
sequence have identical names, assembly fails with a naming-collision
error instead of succeeding by dropping or merging one. -/
theorem c3_duplicate_names_fail (a : List AssetDef) (s : List Schedule)
    (r : List (String × DbtCliResource)) (i j : Nat)
    (hi : i < a.length) (hj : j < a.length) (hij : i ≠ j)
    (hname : (a.get ⟨i, hi⟩).name = (a.get ⟨j, hj⟩).name) :
    ∃ n, mkDefinitions a s r = .error (.namingCollision n) := by
  have hnd : ¬ (a.map AssetDef.name).Nodup := by
    intro h
    have hi' : i < (a.map AssetDef.name).length := by simpa using hi
    have hj' : j < (a.map AssetDef.name).length := by simpa using hj
    have hget : (a.map AssetDef.name).get ⟨i, hi'⟩ =
        (a.map AssetDef.name).get ⟨j, hj'⟩ := by
      simpa [List.get_eq_getElem, List.getElem_map] using hname
    have := (h.get_inj_iff).mp hget
    exact hij (Fin.mk.injEq .. ▸ this)
  cases hfd : findDupName (a.map AssetDef.name) with
  | none => exact absurd ((findDupName_eq_none_iff _).mp hfd) hnd
  | some n =>
    refine ⟨n, ?_⟩
    unfold mkDefinitions
    rw [hfd]

/-- Witness for C3 at a concrete two-element collection sharing the name
"x". -/
theorem c3_duplicate_names_fail_witness :
    (0 : Nat) ≠ 1 ∧
    (([⟨"x", false⟩, ⟨"x", true⟩] : List AssetDef).get ⟨0, by decide⟩).name =
      (([⟨"x", false⟩, ⟨"x", true⟩] : List AssetDef).get ⟨1, by decide⟩).name ∧
    ∃ n, mkDefinitions [⟨"x", false⟩, ⟨"x", true⟩] [] [] =
      .error (.namingCollision n) :=
  ⟨by decide, by decide,
    c3_duplicate_names_fail _ _ _ 0 1 (by decide) (by decide) (by decide)
      (by decide)⟩

/-- C4: assembly is deterministic — two registration objects assembled
from identical inputs have identical logical content (asset names,
schedule set, resource keys). -/
theorem c4_assembly_deterministic (a : List AssetDef) (s : List Schedule)
    (r : List (String × DbtCliResource)) (d1 d2 : Definitions)
    (h1 : mkDefinitions a s r = .ok d1)
    (h2 : mkDefinitions a s r = .ok d2) :
    d1.assets.map AssetDef.name = d2.assets.map AssetDef.name ∧
    d1.schedules = d2.schedules ∧
    d1.resources.map Prod.fst = d2.resources.map Prod.fst := by
  have hd : d1 = d2 := by
    have h := h1.symm.trans h2
    exact Except.ok.inj h
  subst hd
  exact ⟨rfl, rfl, rfl⟩

/-- Witness for C4 at the module's concrete inputs. -/
theorem c4_assembly_deterministic_witness :
    defs = .ok { assets := [dbtlearn_dbt_assets, dbtlearn_partitioned_dbt_assets],
                 schedules := schedules,
                 resources := [("dbt", mkDbtCliResource dbt_project_dir)] } ∧
    ({ assets := [dbtlearn_dbt_assets, dbtlearn_partitioned_dbt_assets],
       schedules := schedules,
       resources := [("dbt", mkDbtCliResource dbt_project_dir)] : Definitions }.assets.map AssetDef.name =
     { assets := [dbtlearn_dbt_assets, dbtlearn_partitioned_dbt_assets],
       schedules := schedules,
       resources := [("dbt", mkDbtCliResource dbt_project_dir)] : Definitions }.assets.map AssetDef.name) :=
  have h : mkDefinitions
      [dbtlearn_dbt_assets, dbtlearn_partitioned_dbt_assets] schedules
      [("dbt", mkDbtCliResource dbt_project_dir)] =
      .ok { assets := [dbtlearn_dbt_assets, dbtlearn_partitioned_dbt_assets],
            schedules := schedules,
            resources := [("dbt", mkDbtCliResource dbt_project_dir)] } :=
    mkDefinitions_ok_of_nodup _ _ _ (by decide)
  ⟨h, (c4_assembly_deterministic _ _ _ _ _ h h).1⟩

/-- C5: the assembler performs no filesystem check — assembly succeeds
for any project-root path regardless of the ambient filesystem, and the
configuration error for a non-existing path is raised only later, when
the consuming collaborator uses the CLI resource. -/
theorem c5_no_io_lazy_path_validation (fsExists : String → Bool)
    (p : String) (a : List AssetDef) (s : List Schedule)
    (hnd : (a.map AssetDef.name).Nodup) :
    (∃ d, mkDefinitions a s [("dbt", ⟨p⟩)] = .ok d) ∧
    (fsExists p = false →
      useDbtCliResource fsExists ⟨p⟩ = .error (.missingProjectDir p)) := by
  refine ⟨⟨_, mkDefinitions_ok_of_nodup a s _ hnd⟩, ?_⟩
  intro hfs
  unfold useDbtCliResource
  simp [hfs]

/-- Witness for C5: a filesystem in which no path exists, a dangling
path, and a singleton asset collection. -/
theorem c5_no_io_lazy_path_validation_witness :
    (([⟨"a", false⟩] : List AssetDef).map AssetDef.name).Nodup ∧
    ((∃ d, mkDefinitions [⟨"a", false⟩] [] [("dbt", ⟨"/missing"⟩)] = .ok d) ∧
     ((fun _ => false : String → Bool) "/missing" = false →
       useDbtCliResource (fun _ => false) ⟨"/missing"⟩ =
         .error (.missingProjectDir "/missing"))) :=
  ⟨by decide,
    c5_no_io_lazy_path_validation (fun _ => false) "/missing" _ _ (by decide)⟩

/-- C6: the assembler accepts a single asset sequence mixing partitioned
and unpartitioned definitions together with a schedule sequence and a
resource mapping whose only key is "dbt" bound to a CLI-resource
configuration, and produces a single registration object from them. -/
theorem c6_mixed_assets_single_registration :
    ∃ d, defs = .ok d ∧
      (∃ x ∈ d.assets, x.partitioned = true) ∧
      (∃ x ∈ d.assets, x.partitioned = false) ∧
      d.resources = [("dbt", mkDbtCliResource dbt_project_dir)] := by
  refine ⟨_, rfl, ?_, ?_, rfl⟩
  · exact ⟨dbtlearn_partitioned_dbt_assets, by simp, rfl⟩
  · exact ⟨dbtlearn_dbt_assets, by simp, rfl⟩

/-- C7: an empty schedule list is a valid input — assembly with zero
schedules succeeds and the resulting registration object has an empty
schedule collection. -/
theorem c7_empty_schedules_accepted (a : List AssetDef)
    (r : List (String × DbtCliResource))
    (hnd : (a.map AssetDef.name).Nodup) :
    ∃ d, mkDefinitions a [] r = .ok d ∧ d.schedules = [] :=
  ⟨_, mkDefinitions_ok_of_nodup a [] r hnd, rfl⟩

/-- Witness for C7 at a concrete singleton asset collection. -/
theorem c7_empty_schedules_accepted_witness :
    (([⟨"a", false⟩] : List AssetDef).map AssetDef.name).Nodup ∧
    ∃ d, mkDefinitions [⟨"a", false⟩] [] [("dbt", ⟨"/proj"⟩)] = .ok d ∧
      d.schedules = [] :=
  ⟨by decide, c7_empty_schedules_accepted _ _ (by decide)⟩

/-- C8: every successfully constructed registration object satisfies the
invariant that asset names are unique within its asset collection and,
given that the input resource mapping has unique keys (as a dictionary
does), resource names are unique within its resource mapping. -/
theorem c8_uniqueness_invariant (a : List AssetDef) (s : List Schedule)
    (r : List (String × DbtCliResource)) (d : Definitions)
    (h : mkDefinitions a s r = .ok d)
    (hr : (r.map Prod.fst).Nodup) :
    (d.assets.map AssetDef.name).Nodup ∧
    (d.resources.map Prod.fst).Nodup := by
  obtain ⟨hd, hnd⟩ := mkDefinitions_ok_elim a s r d h
  subst hd
  exact ⟨hnd, hr⟩

/-- Witness for C8 at the module's concrete inputs. -/
theorem c8_uniqueness_invariant_witness :
    (([("dbt", mkDbtCliResource dbt_project_dir)].map Prod.fst).Nodup) ∧
    ((({ assets := [dbtlearn_dbt_assets, dbtlearn_partitioned_dbt_assets],
         schedules := schedules,
         resources := [("dbt", mkDbtCliResource dbt_project_dir)] : Definitions
       }.assets.map AssetDef.name).Nodup) ∧
     (({ assets := [dbtlearn_dbt_assets, dbtlearn_partitioned_dbt_assets],
         schedules := schedules,
         resources := [("dbt", mkDbtCliResource dbt_project_dir)] : Definitions
       }.resources.map Prod.fst).Nodup)) :=
  ⟨by decide,
    c8_uniqueness_invariant _ _ _ _
      (mkDefinitions_ok_of_nodup _ _ _ (by decide)) (by decide)⟩

/-- C9: assembly is all-or-nothing — either it succeeds and yields the
complete registration object holding every input collection, or it fails
with a naming-collision error and no registration object at all; no
third outcome and no partial object exists. -/
theorem c9_all_or_nothing (a : List AssetDef) (s : List Schedule)
    (r : List (String × DbtCliResource)) :
    (mkDefinitions a s r =
        .ok { assets := a, schedules := s, resources := r } ∧
      (a.map AssetDef.name).Nodup) ∨
    (∃ n, mkDefinitions a s r = .error (.namingCollision n) ∧
      ¬ (a.map AssetDef.name).Nodup) := by
  cases hfd : findDupName (a.map AssetDef.name) with
  | none =>
    left
    have hnd := (findDupName_eq_none_iff _).mp hfd
    exact ⟨mkDefinitions_ok_of_nodup a s r hnd, hnd⟩
  | some n =>
    right
    refine ⟨n, ?_, ?_⟩
    · unfold mkDefinitions
      rw [hfd]
    · intro hnd
      rw [(findDupName_eq_none_iff _).mpr hnd] at hfd
      cases hfd

/-- C10: the only transformation applied to the project-root path before
it reaches the CLI resource is `os.fspath`, coercion to the string form;
the resource stores the path verbatim, with no resolution to absolute
form, no normalization, and no existence test. -/
theorem c10_fspath_verbatim (p : PathLike) :
    mkDbtCliResource p = { project_dir := p.str } ∧ os_fspath p = p.str :=
  ⟨rfl, rfl⟩
